import Mathlib

/-!
Verification of the zkp-auth repository: a Chaum-Pedersen zero-knowledge
proof authentication system. The development shallowly embeds the ZKP
arithmetic engine (src/lib.rs) and the gRPC auth server state machine
(src/server.rs) as executable Lean definitions over Nat (the code uses
arbitrary-precision unsigned BigUint) and association-list maps (the code
uses HashMap behind a Mutex; requests are serialized by the locks, so the
server is modelled as a sequential state machine with the random draws,
the challenge c and the generated identifier strings, passed in as
explicit inputs).
-/

set_option maxRecDepth 40000

/-!
Fast modular exponentiation. Rust's BigUint::modpow(b, e, m) computes
b ^ e mod m by binary exponentiation; we embed it with an explicit fuel
argument (the exponent halves every step, so fuel = e always suffices)
so that witnesses can evaluate it on cryptographic-size inputs, and prove
it equal to the mathematical b ^ e % m.
-/

def modpowAux : Nat → Nat → Nat → Nat → Nat
  | 0, _, _, m => 1 % m
  | fuel+1, b, e, m =>
    if e = 0 then 1 % m
    else
      let r := modpowAux fuel (b * b % m) (e / 2) m
      if e % 2 = 1 then b % m * r % m else r

def modpow (b e m : Nat) : Nat := modpowAux e b e m

/-!
The ZKP engine from src/lib.rs. The struct holds the group parameters;
solve computes the challenge response s = k - c * x (mod q) in unsigned
arithmetic with an explicit case split; verify checks the two
Chaum-Pedersen equations r1 = alpha^s * y1^c (mod p) and
r2 = beta^s * y2^c (mod p). Rust's x.modpow(1, q) is x % q.
-/

structure ZKP where
  alpha : Nat
  beta : Nat
  p : Nat
  q : Nat
  rng_upper_bound : Nat
deriving DecidableEq, Repr

def ZKP.solve (z : ZKP) (k c x : Nat) : Nat :=
  let cx := c * x
  if k ≥ cx then (k - cx) % z.q
  else z.q - (cx - k) % z.q

def ZKP.verify (z : ZKP) (y1 y2 r1 r2 s c : Nat) : Bool :=
  (r1 == modpow z.alpha s z.p * modpow y1 c z.p % z.p) &&
  (r2 == modpow z.beta s z.p * modpow y2 c z.p % z.p)

/-!
The fixed 1024-bit group configuration from ZKP::get_1024_bits_config
(RFC 5114 constants, written as hex literals exactly as in the source;
rng_upper_bound is BigUint::new(vec![u32::MAX; 4]) = 2^128 - 1, and
beta = alpha.modpow(1_469_131_869, p)).
-/

def p1024 : Nat := 0xB10B8F96A080E01DDE92DE5EAE5D54EC52C99FBCFB06A3C69A6A9DCA52D23B616073E28675A23D189838EF1E2EE652C013ECB4AEA906112324975C3CD49B83BFACCBDD7D90C4BD7098488E9C219A73724EFFD6FAE5644738FAA31A4FF55BCCC0A151AF5F0DC8B4BD45BF37DF365C1A65E68CFDA76D4DA708DF1FB2BC2E4A4371

def q1024 : Nat := 0xF518AA8781A8DF278ABA4E7D64B7CB9D49462353

def alpha1024 : Nat := 0xA4D1CBD5C3FD34126765A442EFB99905F8104DD258AC507FD6406CFF14266D31266FEA1E5C41564B777E690F5504F213160217B4B01B886A5E91547F9E2749F4D7FBD7D3B9A92EE1909D0D2263F80A76A6A24C087A091F531DBF0A0169B6A28AD662A4D18E73AFA32D779D5918D08BC8858F4DCEF97C2A24855E6EEB22B3B2E5

def beta1024 : Nat := modpow alpha1024 1469131869 p1024

def rngUpperBound1024 : Nat := 2 ^ 128 - 1

def get_1024_bits_config : Nat × Nat × Nat × Nat × Nat :=
  (alpha1024, beta1024, p1024, q1024, rngUpperBound1024)

def zkp_instance : ZKP :=
  ZKP.mk alpha1024 beta1024 p1024 q1024 rngUpperBound1024

/-- The toy group used by the test test_toy_example in src/lib.rs. -/
def toyZKP : ZKP := ZKP.mk 4 9 23 11 1

/-!
The auth server from src/server.rs. HashMap-backed state is modelled as
association lists whose insert replaces an existing binding in place, as
HashMap::insert does. The gRPC Status carries a tonic Code and a message;
the three handlers become pure state transformers: the random draws of
the code (the challenge c from generate_random and the 48-character
alphanumeric auth_id / session_id strings from generate_random_string)
are passed in as explicit inputs, and the unwrap on the credential lookup
inside verify_authentication is modelled by a distinguished panic
outcome. The error paths return before any map mutation, so the err
outcomes carry the unchanged state.
-/

def insertA {β : Type} : List (String × β) → String → β → List (String × β)
  | [], k, v => [(k, v)]
  | (k', v') :: rest, k, v =>
    if k' = k then (k, v) :: rest else (k', v') :: insertA rest k v

def lookupA {β : Type} : List (String × β) → String → Option β
  | [], _ => none
  | (k', v') :: rest, k => if k' = k then some v' else lookupA rest k

structure UserInfo where
  user_name : String
  y1 : Nat
  y2 : Nat
  r1 : Nat
  r2 : Nat
  c : Nat
  s : Nat
  session_id : String
deriving DecidableEq, Repr

/-- UserInfo::default(): BigUint fields are zero, String fields empty. -/
def UserInfo.default : UserInfo := ⟨"", 0, 0, 0, 0, 0, 0, ""⟩

structure ServerState where
  user_info : List (String × UserInfo)
  auth_id_to_user : List (String × String)
deriving DecidableEq, Repr

def emptyServerState : ServerState := ⟨[], []⟩

inductive Code where
  | ok
  | cancelled
  | unknown
  | invalidArgument
  | deadlineExceeded
  | notFound
  | alreadyExists
  | permissionDenied
  | resourceExhausted
  | failedPrecondition
  | aborted
  | outOfRange
  | unimplemented
  | internal
  | unavailable
  | dataLoss
  | unauthenticated
deriving DecidableEq, Repr

structure Status where
  code : Code
  message : String
deriving DecidableEq, Repr

structure RegisterResponse where
deriving DecidableEq, Repr

structure AuthenticationChallengeResponse where
  auth_id : String
  c : Nat
deriving DecidableEq, Repr

structure AuthenticationAnswerResponse where
  session_id : String
deriving DecidableEq, Repr

inductive ChallengeOutcome where
  | ok (st : ServerState) (response : AuthenticationChallengeResponse)
  | err (st : ServerState) (status : Status)
deriving DecidableEq, Repr

def ChallengeOutcome.isOk : ChallengeOutcome → Bool
  | .ok _ _ => true
  | .err _ _ => false

inductive VerifyOutcome where
  | ok (st : ServerState) (response : AuthenticationAnswerResponse)
  | err (st : ServerState) (status : Status)
  | panic
deriving DecidableEq, Repr

def VerifyOutcome.isOk : VerifyOutcome → Bool
  | .ok _ _ => true
  | _ => false

/-- AuthImpl::register: builds a default UserInfo, sets user_name, y1, y2
and inserts it under user_name, overwriting any previous entry. It never
fails and returns the empty RegisterResponse. -/
def register (st : ServerState) (user_name : String) (y1 y2 : Nat) :
    ServerState × RegisterResponse :=
  let user_info_cache : UserInfo :=
    { UserInfo.default with user_name := user_name, y1 := y1, y2 := y2 }
  ({ st with user_info := insertA st.user_info user_name user_info_cache },
    RegisterResponse.mk)

/-- AuthImpl::create_authentication_challenge: if the user is registered,
stores r1, r2 and the freshly drawn challenge c in the user's entry,
then maps the freshly generated auth_id to the user and returns both;
otherwise returns a NotFound status without touching the state. -/
def create_authentication_challenge (st : ServerState) (user_name : String)
    (r1 r2 : Nat) (c : Nat) (auth_id : String) : ChallengeOutcome :=
  match lookupA st.user_info user_name with
  | some user_info =>
    let user_info := { user_info with r1 := r1, r2 := r2, c := c }
    ChallengeOutcome.ok
      ⟨insertA st.user_info user_name user_info,
        insertA st.auth_id_to_user auth_id user_name⟩
      ⟨auth_id, c⟩
  | none =>
    ChallengeOutcome.err st
      ⟨Code.notFound, "User : " ++ user_name ++ " not found in database"⟩

/-- AuthImpl::verify_authentication: resolves auth_id to a user name, then
unwraps the credential lookup (panicking if the entry is absent), runs the
engine verification against the stored y1, y2, r1, r2, c, and on success
stores and returns the fresh session_id; on failure returns a NotFound
status with a wrong-answer message. -/
def verify_authentication (st : ServerState) (auth_id : String) (s : Nat)
    (session_id : String) : VerifyOutcome :=
  match lookupA st.auth_id_to_user auth_id with
  | some user_name =>
    match lookupA st.user_info user_name with
    | some user_info =>
      if zkp_instance.verify user_info.y1 user_info.y2 user_info.r1 user_info.r2 s
          user_info.c then
        VerifyOutcome.ok
          ⟨insertA st.user_info user_name { user_info with session_id := session_id }, 
            st.auth_id_to_user⟩
          ⟨session_id⟩
      else
        VerifyOutcome.err st
          ⟨Code.notFound, "S : " ++ Nat.repr s ++ " wrong answer"⟩
    | none => VerifyOutcome.panic
  | none =>
    VerifyOutcome.err st
      ⟨Code.notFound, "AuthId : " ++ auth_id ++ " not found in database"⟩

/-!
Reachability of server states from the empty maps under any sequence of
the three handlers, with arbitrary request payloads and arbitrary values
for the injected random draws. Error outcomes carry their resulting state
explicitly, so the error steps are included even though they never move
to a new state.
-/

inductive Reachable : ServerState → Prop where
  | init : Reachable emptyServerState
  | step_register (st : ServerState) (u : String) (y1 y2 : Nat) :
      Reachable st → Reachable (register st u y1 y2).1
  | step_challenge (st st' : ServerState) (u : String) (r1 r2 c : Nat) (aid : String)
      (resp : AuthenticationChallengeResponse) : Reachable st →
      create_authentication_challenge st u r1 r2 c aid = ChallengeOutcome.ok st' resp →
      Reachable st'
  | step_challenge_err (st st' : ServerState) (u : String) (r1 r2 c : Nat) (aid : String)
      (status : Status) : Reachable st →
      create_authentication_challenge st u r1 r2 c aid = ChallengeOutcome.err st' status →
      Reachable st'
  | step_verify (st st' : ServerState) (aid : String) (s : Nat) (sid : String)
      (resp : AuthenticationAnswerResponse) : Reachable st →
      verify_authentication st aid s sid = VerifyOutcome.ok st' resp →
      Reachable st'
  | step_verify_err (st st' : ServerState) (aid : String) (s : Nat) (sid : String)
      (status : Status) : Reachable st →
      verify_authentication st aid s sid = VerifyOutcome.err st' status →
      Reachable st'

/-- Consistency between the two stores: every user name reachable through
the auth_id map has a credential entry. -/
def ConsistentState (st : ServerState) : Prop :=
  ∀ aid name, lookupA st.auth_id_to_user aid = some name →
    (lookupA st.user_info name).isSome = true

/-!
Concrete two-challenge scenario against the server: alice registers with
secret x = 6, a first challenge is issued with nonce k = 100 and drawn
challenge c = 4 under auth_id A, then a second challenge with nonce
k = 3 and drawn challenge c = 5 under auth_id B. The response to the
first challenge is solve(100, 4, 6) = 76.
-/

def c2StA : ServerState :=
  (register emptyServerState "alice" (modpow alpha1024 6 p1024)
    (modpow beta1024 6 p1024)).1

def c2StB : ServerState :=
  ⟨[("alice", ⟨"alice", modpow alpha1024 6 p1024, modpow beta1024 6 p1024,
      modpow alpha1024 100 p1024, modpow beta1024 100 p1024, 4, 0, ""⟩)],
    [("A", "alice")]⟩

def c2StC : ServerState :=
  ⟨[("alice", ⟨"alice", modpow alpha1024 6 p1024, modpow beta1024 6 p1024,
      modpow alpha1024 3 p1024, modpow beta1024 3 p1024, 5, 0, ""⟩)],
    [("A", "alice"), ("B", "alice")]⟩

/-!
Error classification of Verify. The code signals a failed verification
with tonic Code::NotFound, the same class it uses for an unknown user or
an unknown auth_id; only the message text differs.
-/

def VerifyOutcome.statusCode : VerifyOutcome → Option Code
  | .err _ status => some status.code
  | _ => none

def c5St : ServerState :=
  ⟨[("alice", ⟨"alice", 0, 0, 0, 0, 0, 0, ""⟩)], [("A", "alice")]⟩

/-!
Re-registration scenario: alice registers with secret 6, re-registers
with secret 7. A challenge drawn with c = 0 makes the response computed
from the old secret verify (the challenge eliminates the credential from
the equations), refuting the claim that only the new secret verifies; a
challenge drawn with c = 4 and nonce k = 100 rejects the old secret's
response while accepting the new secret's.
-/

def c7StOld : ServerState :=
  (register emptyServerState "alice" (modpow alpha1024 6 p1024)
    (modpow beta1024 6 p1024)).1

def c7StNew : ServerState :=
  (register c7StOld "alice" (modpow alpha1024 7 p1024) (modpow beta1024 7 p1024)).1

def c7StZero : ServerState :=
  ⟨[("alice", ⟨"alice", modpow alpha1024 7 p1024, modpow beta1024 7 p1024,
      modpow alpha1024 5 p1024, modpow beta1024 5 p1024, 0, 0, ""⟩)],
    [("A", "alice")]⟩

def c7StRej : ServerState :=
  ⟨[("alice", ⟨"alice", modpow alpha1024 7 p1024, modpow beta1024 7 p1024,
      modpow alpha1024 100 p1024, modpow beta1024 100 p1024, 4, 0, ""⟩)],
    [("A", "alice")]⟩

theorem modpowAux_eq (fuel : Nat) : ∀ e, e ≤ fuel → ∀ b m, modpowAux fuel b e m = b ^ e % m := by
  induction fuel with
  | zero =>
    intro e he b m
    have h0 : e = 0 := Nat.le_zero.mp he
    subst h0
    simp [modpowAux]
  | succ fuel ih =>
    intro e he b m
    by_cases h0 : e = 0
    · subst h0; simp [modpowAux]
    · have h1 : 1 ≤ e := Nat.one_le_iff_ne_zero.mpr h0
      have hdiv : e / 2 ≤ fuel := by
        have := Nat.div_lt_self h1 (by norm_num : 1 < 2)
        omega
      have hr : modpowAux fuel (b * b % m) (e / 2) m = (b * b) ^ (e / 2) % m := by
        rw [ih (e / 2) hdiv (b * b % m) m, ← Nat.pow_mod]
      have hbb : (b * b) ^ (e / 2) = b ^ (2 * (e / 2)) := by
        rw [← pow_two, ← pow_mul]
      rcases Nat.mod_two_eq_zero_or_one e with hpar | hpar
      · have he2 : 2 * (e / 2) = e := by omega
        simp only [modpowAux, if_neg h0, hpar]
        norm_num
        rw [hr, hbb, he2]
      · have he2 : 2 * (e / 2) + 1 = e := by omega
        simp only [modpowAux, if_neg h0, hpar, if_pos rfl]
        rw [hr, hbb]
        calc b % m * (b ^ (2 * (e / 2)) % m) % m
            = b * b ^ (2 * (e / 2)) % m := by rw [← Nat.mul_mod]
          _ = b ^ (2 * (e / 2) + 1) % m := by
              congr 1
              rw [pow_succ]
              exact mul_comm b (b ^ (2 * (e / 2)))
          _ = b ^ e % m := by rw [he2]

theorem modpow_eq (b e m : Nat) : modpow b e m = b ^ e % m :=
  modpowAux_eq e e (Nat.le_refl e) b m

/-!
Number-theoretic facts about the engine. If the base has multiplicative
order dividing q modulo p, exponents only matter modulo q; and solve
produces a response s with s + c * x congruent to k modulo q, in both
branches of its unsigned case split. Together these give completeness of
the Chaum-Pedersen verification equation.
-/

theorem pow_mod_cycle (a p q : Nat) (hp : 1 < p) (ha : a ^ q % p = 1) (n : Nat) :
    a ^ n % p = a ^ (n % q) % p := by
  conv_lhs => rw [← Nat.div_add_mod n q]
  rw [pow_add, pow_mul, Nat.mul_mod, Nat.pow_mod, ha, one_pow,
    Nat.mod_eq_of_lt hp, one_mul, Nat.mod_mod_of_dvd _ (dvd_refl p)]

theorem solve_add_mod (z : ZKP) (hq : 0 < z.q) (k c x : Nat) :
    (z.solve k c x + c * x) % z.q = k % z.q := by
  unfold ZKP.solve
  by_cases h : k ≥ c * x
  · simp only [if_pos h]
    rw [Nat.mod_add_mod, Nat.sub_add_cancel h]
  · simp only [if_neg h]
    push_neg at h
    have h1 := Nat.div_add_mod (c * x - k) z.q
    have h2 : (c * x - k) % z.q < z.q := Nat.mod_lt _ hq
    have e1 : z.q - (c * x - k) % z.q + c * x =
        k + (z.q * ((c * x - k) / z.q) + z.q) := by
      generalize z.q * ((c * x - k) / z.q) = t at h1 ⊢
      generalize (c * x - k) % z.q = r at h1 h2 ⊢
      generalize c * x = d at h h1 ⊢
      omega
    rw [e1, ← Nat.add_assoc, Nat.add_mod_right, Nat.add_mul_mod_self_left]

theorem verify_solve (z : ZKP) (hp : 1 < z.p) (hq : 0 < z.q)
    (ha : z.alpha ^ z.q % z.p = 1) (hb : z.beta ^ z.q % z.p = 1) (x k c : Nat) :
    z.verify (z.alpha ^ x % z.p) (z.beta ^ x % z.p) (z.alpha ^ k % z.p) (z.beta ^ k % z.p)
      (z.solve k c x) c = true := by
  have key : ∀ a : Nat, a ^ z.q % z.p = 1 →
      modpow a (z.solve k c x) z.p * modpow (a ^ x % z.p) c z.p % z.p = a ^ k % z.p := by
    intro a hA
    rw [modpow_eq, modpow_eq, ← Nat.pow_mod, ← pow_mul, ← Nat.mul_mod, ← pow_add]
    have hs : (z.solve k c x + x * c) % z.q = k % z.q := by
      rw [mul_comm x c]
      exact solve_add_mod z hq k c x
    rw [pow_mod_cycle a z.p z.q hp hA (z.solve k c x + x * c), hs,
      ← pow_mod_cycle a z.p z.q hp hA k]
  unfold ZKP.verify
  rw [key z.alpha ha, key z.beta hb]
  simp

/-- C1: the specification requires both branches of solve to return a value
in the interval from 0 up to but excluding q. The second branch violates
this at the boundary where q divides c * x - k with k < c * x: with the toy
parameters q = 11 and inputs k = 0, c = 1, x = 11 the code computes
11 - (11 - 0) % 11 = 11 - 0 = 11, which equals q and lies outside the
claimed interval. -/
theorem c1_solve_escapes_range :
    toyZKP.solve 0 1 11 = 11 ∧ ¬ toyZKP.solve 0 1 11 < toyZKP.q := by decide

/-- C6: the concrete toy-group scenario of test_toy_example: with p = 23,
q = 11, alpha = 4, beta = 9, x = 6, k = 7, c = 4 the commitments are
y1 = 2, y2 = 3, r1 = 8, r2 = 4, the response is s = 5, verification of the
honest response succeeds, and the response computed from the fake secret
x = 7 is rejected. -/
theorem c6_toy_example :
    modpow 4 6 23 = 2 ∧ modpow 9 6 23 = 3 ∧
    modpow 4 7 23 = 8 ∧ modpow 9 7 23 = 4 ∧
    toyZKP.solve 7 4 6 = 5 ∧
    toyZKP.verify 2 3 8 4 5 4 = true ∧
    toyZKP.verify 2 3 8 4 (toyZKP.solve 7 4 7) 4 = false := by decide

/-- C3: completeness of the protocol. For every parameter set in which
alpha has multiplicative order dividing q modulo p (which holds whenever
alpha generates a subgroup of prime order q) and beta = alpha ^ w mod p,
and for every secret x, nonce k and challenge c, verification of the
honestly computed commitments and response succeeds. -/
theorem c3_completeness (z : ZKP) (w : Nat) (hp : 1 < z.p) (hq : 0 < z.q)
    (ha : z.alpha ^ z.q % z.p = 1) (hb : z.beta = z.alpha ^ w % z.p) (x k c : Nat) :
    z.verify (modpow z.alpha x z.p) (modpow z.beta x z.p)
      (modpow z.alpha k z.p) (modpow z.beta k z.p) (z.solve k c x) c = true := by
  have hbq : z.beta ^ z.q % z.p = 1 := by
    rw [hb, ← Nat.pow_mod, ← pow_mul, mul_comm w z.q, pow_mul, Nat.pow_mod, ha, one_pow,
      Nat.mod_eq_of_lt hp]
  simp only [modpow_eq]
  exact verify_solve z hp hq ha hbq x k c

/-- C3 witness: the completeness theorem applied to the toy group, where
alpha = 4 has order 11 modulo 23 and beta = 9 = 4 ^ 8 mod 23, with
x = 6, k = 7, c = 4. -/
theorem c3_completeness_witness :
    1 < toyZKP.p ∧ 0 < toyZKP.q ∧
    toyZKP.alpha ^ toyZKP.q % toyZKP.p = 1 ∧
    toyZKP.beta = toyZKP.alpha ^ 8 % toyZKP.p ∧
    toyZKP.verify (modpow toyZKP.alpha 6 toyZKP.p) (modpow toyZKP.beta 6 toyZKP.p)
      (modpow toyZKP.alpha 7 toyZKP.p) (modpow toyZKP.beta 7 toyZKP.p)
      (toyZKP.solve 7 4 6) 4 = true :=
  ⟨by decide, by decide, by decide, by decide,
    c3_completeness toyZKP 8 (by decide) (by decide) (by decide) (by decide) 6 7 4⟩

theorem lookupA_insertA {β : Type} (m : List (String × β)) (k k' : String) (v : β) :
    lookupA (insertA m k v) k' = if k = k' then some v else lookupA m k' := by
  induction m with
  | nil => simp [insertA, lookupA]
  | cons hd tl ih =>
    obtain ⟨a, b⟩ := hd
    by_cases hak : a = k
    · subst hak
      simp only [insertA, if_pos rfl, lookupA]
      by_cases hkk : a = k'
      · simp [hkk]
      · simp [hkk]
    · simp only [insertA, if_neg hak, lookupA]
      by_cases hak' : a = k'
      · have hkk : ¬ k = k' := fun h => hak (h ▸ hak')
        simp [hak', hkk]
      · simp [hak', ih]

/-- C8: Challenge for an identity with no credential entry fails with the
NotFound status naming the user and leaves the state unchanged, so no
session is created; for a registered identity it succeeds, storing r1, r2
and the drawn challenge c in the user's entry, mapping the fresh auth_id
to the user, and returning the auth_id together with c. -/
theorem c8_challenge_registration_gate (st : ServerState) (user_name : String)
    (r1 r2 c : Nat) (auth_id : String) :
    (lookupA st.user_info user_name = none →
      create_authentication_challenge st user_name r1 r2 c auth_id =
        ChallengeOutcome.err st
          ⟨Code.notFound, "User : " ++ user_name ++ " not found in database"⟩) ∧
    (∀ info, lookupA st.user_info user_name = some info →
      create_authentication_challenge st user_name r1 r2 c auth_id =
        ChallengeOutcome.ok
          ⟨insertA st.user_info user_name { info with r1 := r1, r2 := r2, c := c },
            insertA st.auth_id_to_user auth_id user_name⟩
          ⟨auth_id, c⟩) := by
  constructor
  · intro h
    unfold create_authentication_challenge
    rw [h]
  · intro info h
    unfold create_authentication_challenge
    rw [h]

/-- C8 witness: at the empty state the challenge for bob fails with
NotFound and no session; after registering bob it succeeds and returns
the injected auth_id together with the drawn challenge. -/
theorem c8_challenge_registration_gate_witness :
    create_authentication_challenge emptyServerState "bob" 1 2 3 "A" =
      ChallengeOutcome.err emptyServerState
        ⟨Code.notFound, "User : bob not found in database"⟩ ∧
    create_authentication_challenge (register emptyServerState "bob" 4 5).1 "bob" 1 2 3 "A" =
      ChallengeOutcome.ok ⟨[("bob", ⟨"bob", 4, 5, 1, 2, 3, 0, ""⟩)], [("A", "bob")]⟩
        ⟨"A", 3⟩ := by
  constructor
  · exact (c8_challenge_registration_gate emptyServerState "bob" 1 2 3 "A").1 rfl
  · have h := (c8_challenge_registration_gate (register emptyServerState "bob" 4 5).1
      "bob" 1 2 3 "A").2 ⟨"bob", 4, 5, 0, 0, 0, 0, ""⟩ (by decide)
    rw [h]
    decide

/-- C10: Register replaces the whole stored record: the new entry carries
the given user_name, y1, y2 and default values for the in-flight challenge
fields r1, r2, c and for s and session_id; the auth_id map is untouched,
and whenever the previous record held a nonzero challenge c, the record a
later Verify reads no longer holds it. -/
theorem c10_register_resets_record (st : ServerState) (user_name : String) (y1 y2 : Nat) :
    lookupA (register st user_name y1 y2).1.user_info user_name =
      some ⟨user_name, y1, y2, 0, 0, 0, 0, ""⟩ ∧
    (register st user_name y1 y2).1.auth_id_to_user = st.auth_id_to_user ∧
    (∀ old, lookupA st.user_info user_name = some old → old.c ≠ 0 →
      ∀ info', lookupA (register st user_name y1 y2).1.user_info user_name = some info' →
        info'.c ≠ old.c) := by
  refine ⟨?_, rfl, ?_⟩
  · unfold register
    rw [lookupA_insertA]
    simp [UserInfo.default]
  · intro old hold hc info' hinfo'
    unfold register at hinfo'
    rw [lookupA_insertA, if_pos rfl] at hinfo'
    have : info'.c = 0 := by
      cases hinfo'
      rfl
    rw [this]
    exact fun h => hc h.symm

/-- C10 witness: re-registering alice, whose record holds the in-flight
challenge c = 3, yields a record with all challenge fields reset, an
unchanged auth_id map, and a stored c different from the old one. -/
theorem c10_register_resets_record_witness :
    lookupA (register ⟨[("alice", ⟨"alice", 9, 9, 7, 7, 3, 0, "x"⟩)], [("A", "alice")]⟩
        "alice" 5 6).1.user_info "alice" = some ⟨"alice", 5, 6, 0, 0, 0, 0, ""⟩ ∧
    (register ⟨[("alice", ⟨"alice", 9, 9, 7, 7, 3, 0, "x"⟩)], [("A", "alice")]⟩
        "alice" 5 6).1.auth_id_to_user = [("A", "alice")] ∧
    ∀ info', lookupA (register ⟨[("alice", ⟨"alice", 9, 9, 7, 7, 3, 0, "x"⟩)], [("A", "alice")]⟩
        "alice" 5 6).1.user_info "alice" = some info' → info'.c ≠ 3 := by
  have h := c10_register_resets_record
    ⟨[("alice", ⟨"alice", 9, 9, 7, 7, 3, 0, "x"⟩)], [("A", "alice")]⟩ "alice" 5 6
  exact ⟨h.1, h.2.1, fun info' hl =>
    h.2.2 ⟨"alice", 9, 9, 7, 7, 3, 0, "x"⟩ (by decide) (by decide) info' hl⟩

/-- C4: the claim requires Verify to answer with a not-found-class error
when the session's user has no credential entry; the code instead unwraps
the credential lookup and panics. In the state whose auth_id map sends A
to alice while the credential store is empty, Verify on A aborts. -/
theorem c4_verify_panics_on_missing_credential :
    verify_authentication ⟨[], [("A", "alice")]⟩ "A" 0 "sid" = VerifyOutcome.panic := by
  decide


/-!
Inversion principles for the two fallible handlers: each outcome
constructor pins down which branch of the handler produced it and what
the resulting state is.
-/

theorem challenge_ok_inv (st st' : ServerState) (u : String) (r1 r2 c : Nat)
    (aid : String) (resp : AuthenticationChallengeResponse)
    (h : create_authentication_challenge st u r1 r2 c aid = ChallengeOutcome.ok st' resp) :
    ∃ info, lookupA st.user_info u = some info ∧
      st' = ⟨insertA st.user_info u { info with r1 := r1, r2 := r2, c := c },
        insertA st.auth_id_to_user aid u⟩ ∧ resp = ⟨aid, c⟩ := by
  unfold create_authentication_challenge at h
  split at h
  · rename_i info hinfo
    injection h with h1 h2
    exact ⟨info, hinfo, h1.symm, h2.symm⟩
  · exact absurd h (by simp)

theorem challenge_err_inv (st st' : ServerState) (u : String) (r1 r2 c : Nat)
    (aid : String) (status : Status)
    (h : create_authentication_challenge st u r1 r2 c aid = ChallengeOutcome.err st' status) :
    st' = st ∧ lookupA st.user_info u = none := by
  unfold create_authentication_challenge at h
  split at h
  · exact absurd h (by simp)
  · rename_i hnone
    injection h with h1 h2
    exact ⟨h1.symm, hnone⟩

theorem verify_ok_inv (st st' : ServerState) (aid : String) (s : Nat)
    (sid : String) (resp : AuthenticationAnswerResponse)
    (h : verify_authentication st aid s sid = VerifyOutcome.ok st' resp) :
    ∃ name info, lookupA st.auth_id_to_user aid = some name ∧
      lookupA st.user_info name = some info ∧
      zkp_instance.verify info.y1 info.y2 info.r1 info.r2 s info.c = true ∧
      st' = ⟨insertA st.user_info name { info with session_id := sid },
        st.auth_id_to_user⟩ ∧ resp = ⟨sid⟩ := by
  unfold verify_authentication at h
  split at h
  · rename_i name hname
    split at h
    · rename_i info hinfo
      split at h
      · rename_i hv
        injection h with h1 h2
        exact ⟨name, info, hname, hinfo, hv, h1.symm, h2.symm⟩
      · exact absurd h (by simp)
    · exact absurd h (by simp)
  · exact absurd h (by simp)

theorem verify_err_inv (st st' : ServerState) (aid : String) (s : Nat)
    (sid : String) (status : Status)
    (h : verify_authentication st aid s sid = VerifyOutcome.err st' status) :
    st' = st := by
  unfold verify_authentication at h
  split at h
  · split at h
    · split at h
      · exact absurd h (by simp)
      · injection h with h1 h2
        exact h1.symm
    · exact absurd h (by simp)
  · injection h with h1 h2
    exact h1.symm

theorem verify_panic_inv (st : ServerState) (aid : String) (s : Nat) (sid : String)
    (h : verify_authentication st aid s sid = VerifyOutcome.panic) :
    ∃ name, lookupA st.auth_id_to_user aid = some name ∧
      lookupA st.user_info name = none := by
  unfold verify_authentication at h
  split at h
  · rename_i name hname
    split at h
    · split at h
      · exact absurd h (by simp)
      · exact absurd h (by simp)
    · rename_i hnone
      exact ⟨name, hname, hnone⟩
  · exact absurd h (by simp)

theorem consistent_insert_user (st : ServerState) (u : String) (info : UserInfo)
    (h : ConsistentState st) :
    ConsistentState ⟨insertA st.user_info u info, st.auth_id_to_user⟩ := by
  intro aid name hl
  simp only [lookupA_insertA]
  by_cases hu : u = name
  · simp [hu]
  · simp only [if_neg hu]
    exact h aid name hl

/-- C9: in every reachable server state, every user name stored as a value
of the auth_id map has an entry in the credential store, and consequently
the credential lookup performed inside Verify never hits the panicking
unwrap: Verify on any auth_id cannot abort from a reachable state. -/
theorem c9_reachable_states_consistent (st : ServerState) (h : Reachable st) :
    ConsistentState st ∧
    ∀ aid s sid, verify_authentication st aid s sid ≠ VerifyOutcome.panic := by
  have hc : ConsistentState st := by
    induction h with
    | init =>
      intro aid name hl
      simp [emptyServerState, lookupA] at hl
    | step_register st u y1 y2 _ ih =>
      exact consistent_insert_user st u _ ih
    | step_challenge st st' u r1 r2 c aid resp _ heq ih =>
      obtain ⟨info, hinfo, hst, -⟩ := challenge_ok_inv st st' u r1 r2 c aid resp heq
      subst hst
      intro aid' name hl
      simp only [lookupA_insertA] at hl
      by_cases haid : aid = aid'
      · rw [if_pos haid] at hl
        injection hl with hname
        subst hname
        simp [lookupA_insertA]
      · rw [if_neg haid] at hl
        simp only [lookupA_insertA]
        by_cases hu : u = name
        · simp [hu]
        · simp only [if_neg hu]
          exact ih aid' name hl
    | step_challenge_err st st' u r1 r2 c aid status _ heq ih =>
      obtain ⟨hst, -⟩ := challenge_err_inv st st' u r1 r2 c aid status heq
      subst hst
      exact ih
    | step_verify st st' aid s sid resp _ heq ih =>
      obtain ⟨name, info, -, -, -, hst, -⟩ := verify_ok_inv st st' aid s sid resp heq
      subst hst
      exact consistent_insert_user st name _ ih
    | step_verify_err st st' aid s sid status _ heq ih =>
      have hst := verify_err_inv st st' aid s sid status heq
      subst hst
      exact ih
  refine ⟨hc, ?_⟩
  intro aid s sid hpanic
  obtain ⟨name, hname, hnone⟩ := verify_panic_inv st aid s sid hpanic
  have := hc aid name hname
  rw [hnone] at this
  simp at this

/-- C9 witness: the state reached by registering alice from the empty
state is consistent and Verify cannot panic from it. -/
theorem c9_reachable_states_consistent_witness :
    ConsistentState (register emptyServerState "alice" 1 2).1 ∧
    ∀ aid s sid, verify_authentication (register emptyServerState "alice" 1 2).1 aid s sid ≠
      VerifyOutcome.panic :=
  c9_reachable_states_consistent (register emptyServerState "alice" 1 2).1
    (Reachable.step_register emptyServerState "alice" 1 2 Reachable.init)

/-!
Order facts for the fixed 1024-bit configuration, established by kernel
evaluation of the fast modular exponentiation, and a completeness
instance for the engine the server actually runs. The facts are kept in
modpow form: the raw power alpha1024 ^ q1024 is astronomically large and
must never be put in a position where the kernel would evaluate it.
-/

theorem alpha1024_modpow_q : modpow alpha1024 q1024 p1024 = 1 := by decide

theorem beta1024_modpow_q : modpow beta1024 q1024 p1024 = 1 := by decide

theorem zkp_instance_verify_solve (x k c : Nat) :
    zkp_instance.verify (modpow alpha1024 x p1024) (modpow beta1024 x p1024)
      (modpow alpha1024 k p1024) (modpow beta1024 k p1024)
      (zkp_instance.solve k c x) c = true := by
  have hp : 1 < zkp_instance.p := by decide
  have hq : 0 < zkp_instance.q := by decide
  have ha : zkp_instance.alpha ^ zkp_instance.q % zkp_instance.p = 1 := by
    rw [← modpow_eq]
    exact alpha1024_modpow_q
  have hb : zkp_instance.beta ^ zkp_instance.q % zkp_instance.p = 1 := by
    rw [← modpow_eq]
    exact beta1024_modpow_q
  have h := verify_solve zkp_instance hp hq ha hb x k c
  simp only [modpow_eq]
  exact h

/-- How the success of Verify is determined: on a state whose lookups
resolve, the outcome is ok exactly when the engine accepts the stored
tuple against the submitted s. -/
theorem verify_isOk_eq (st : ServerState) (aid : String) (s : Nat) (sid : String)
    (name : String) (info : UserInfo)
    (h1 : lookupA st.auth_id_to_user aid = some name)
    (h2 : lookupA st.user_info name = some info) :
    (verify_authentication st aid s sid).isOk =
      zkp_instance.verify info.y1 info.y2 info.r1 info.r2 s info.c := by
  unfold verify_authentication
  rw [h1]
  simp only [h2]
  cases hv : zkp_instance.verify info.y1 info.y2 info.r1 info.r2 s info.c with
  | true => simp [hv, VerifyOutcome.isOk]
  | false => simp [hv, VerifyOutcome.isOk]

/-- C2: the claim demands that after two Challenge calls for the same user
each session stays independently verifiable. It fails: the challenge
state lives in the per-user record, so the second Challenge overwrites
r1, r2 and c. Concretely, the honest response 76 to the first challenge
is accepted right after the first Challenge call, but after the second
Challenge call Verify on the same first auth_id A evaluates the second
session's tuple and rejects that same response. -/
theorem c2_counterexample :
    create_authentication_challenge c2StA "alice" (modpow alpha1024 100 p1024)
      (modpow beta1024 100 p1024) 4 "A" = ChallengeOutcome.ok c2StB ⟨"A", 4⟩ ∧
    create_authentication_challenge c2StB "alice" (modpow alpha1024 3 p1024)
      (modpow beta1024 3 p1024) 5 "B" = ChallengeOutcome.ok c2StC ⟨"B", 5⟩ ∧
    (verify_authentication c2StB "A" (zkp_instance.solve 100 4 6) "tok").isOk = true ∧
    (verify_authentication c2StC "A" (zkp_instance.solve 100 4 6) "tok").isOk = false := by
  refine ⟨by decide, by decide, by decide, by decide⟩

/-- C2 amended: two Challenge calls with distinct injected auth ids give
two session identifiers that both map to the user, but the sessions are
not independent: the per-user challenge fields r1, r2, c are overwritten
by the second call, and Verify on the first auth_id is evaluated against
the second challenge's tuple, so only the latest challenge can be
answered. -/
theorem c2_amended_second_challenge_overwrites (st st1 st2 : ServerState)
    (name : String) (info0 : UserInfo) (r1 r2 c1 : Nat) (aid1 : String)
    (r1' r2' c2 : Nat) (aid2 : String)
    (resp1 resp2 : AuthenticationChallengeResponse)
    (h0 : lookupA st.user_info name = some info0)
    (hne : aid1 ≠ aid2)
    (h1 : create_authentication_challenge st name r1 r2 c1 aid1 =
      ChallengeOutcome.ok st1 resp1)
    (h2 : create_authentication_challenge st1 name r1' r2' c2 aid2 =
      ChallengeOutcome.ok st2 resp2) :
    lookupA st2.auth_id_to_user aid1 = some name ∧
    lookupA st2.auth_id_to_user aid2 = some name ∧
    lookupA st2.user_info name = some { info0 with r1 := r1', r2 := r2', c := c2 } ∧
    ∀ s sid, (verify_authentication st2 aid1 s sid).isOk =
      zkp_instance.verify info0.y1 info0.y2 r1' r2' s c2 := by
  obtain ⟨i1, hi1, hst1, -⟩ := challenge_ok_inv st st1 name r1 r2 c1 aid1 resp1 h1
  rw [h0] at hi1
  injection hi1 with hi1
  subst hi1
  subst hst1
  obtain ⟨i2, hi2, hst2, -⟩ := challenge_ok_inv _ st2 name r1' r2' c2 aid2 resp2 h2
  rw [lookupA_insertA, if_pos rfl] at hi2
  injection hi2 with hi2
  subst hi2
  subst hst2
  have hauth1 : lookupA (insertA (insertA st.auth_id_to_user aid1 name) aid2 name) aid1 =
      some name := by
    rw [lookupA_insertA, if_neg (fun h => hne h.symm), lookupA_insertA, if_pos rfl]
  have huser : lookupA (insertA (insertA st.user_info name
      { info0 with r1 := r1, r2 := r2, c := c1 }) name
      { info0 with r1 := r1', r2 := r2', c := c2 }) name =
      some { info0 with r1 := r1', r2 := r2', c := c2 } := by
    rw [lookupA_insertA, if_pos rfl]
  refine ⟨hauth1, ?_, huser, ?_⟩
  · rw [lookupA_insertA, if_pos rfl]
  · intro s sid
    exact verify_isOk_eq
      ⟨insertA (insertA st.user_info name { info0 with r1 := r1, r2 := r2, c := c1 })
          name { info0 with r1 := r1', r2 := r2', c := c2 },
        insertA (insertA st.auth_id_to_user aid1 name) aid2 name⟩
      aid1 s sid name { info0 with r1 := r1', r2 := r2', c := c2 } hauth1 huser

/-- C2 amended witness: the amended theorem instantiated on the concrete
two-challenge scenario, with the lookup hypotheses and the challenge-call
equations discharged by evaluation. -/
theorem c2_amended_second_challenge_overwrites_witness :
    lookupA c2StC.auth_id_to_user "A" = some "alice" ∧
    lookupA c2StC.auth_id_to_user "B" = some "alice" ∧
    lookupA c2StC.user_info "alice" = some ⟨"alice", modpow alpha1024 6 p1024,
      modpow beta1024 6 p1024, modpow alpha1024 3 p1024, modpow beta1024 3 p1024,
      5, 0, ""⟩ ∧
    ∀ s sid, (verify_authentication c2StC "A" s sid).isOk =
      zkp_instance.verify (modpow alpha1024 6 p1024) (modpow beta1024 6 p1024)
        (modpow alpha1024 3 p1024) (modpow beta1024 3 p1024) s 5 :=
  c2_amended_second_challenge_overwrites c2StA c2StB c2StC "alice"
    ⟨"alice", modpow alpha1024 6 p1024, modpow beta1024 6 p1024, 0, 0, 0, 0, ""⟩
    (modpow alpha1024 100 p1024) (modpow beta1024 100 p1024) 4 "A"
    (modpow alpha1024 3 p1024) (modpow beta1024 3 p1024) 5 "B"
    ⟨"A", 4⟩ ⟨"B", 5⟩ (by decide) (by decide) (by decide) (by decide)

/-- C5: the claim requires a verification-failed error class distinct from
the not-found class. The code uses Code::NotFound for both: on the live
session A with failing equations Verify returns a NotFound status, and on
the unknown session B it also returns a NotFound status, so the two error
classes coincide. -/
theorem c5_counterexample :
    verify_authentication c5St "A" 3 "tok" =
      VerifyOutcome.err c5St ⟨Code.notFound, "S : 3 wrong answer"⟩ ∧
    verify_authentication c5St "B" 3 "tok" =
      VerifyOutcome.err c5St ⟨Code.notFound, "AuthId : B not found in database"⟩ ∧
    (verify_authentication c5St "A" 3 "tok").statusCode =
      (verify_authentication c5St "B" 3 "tok").statusCode := by
  refine ⟨by decide, by decide, by decide⟩

/-- C5 amended: when Verify runs on a live session whose user exists and
the equations fail, it returns an error with the same NotFound code used
for missing entities, distinguished only by the wrong-answer message. -/
theorem c5_amended_failure_is_notfound (st : ServerState) (aid : String) (s : Nat)
    (sid : String) (name : String) (info : UserInfo)
    (h1 : lookupA st.auth_id_to_user aid = some name)
    (h2 : lookupA st.user_info name = some info)
    (h3 : zkp_instance.verify info.y1 info.y2 info.r1 info.r2 s info.c = false) :
    verify_authentication st aid s sid =
      VerifyOutcome.err st ⟨Code.notFound, "S : " ++ Nat.repr s ++ " wrong answer"⟩ := by
  unfold verify_authentication
  rw [h1]
  simp only [h2, h3]
  simp

/-- C5 amended witness: in the state holding alice's all-zero credential
and live session A, the wrong answer 3 yields the NotFound status with
the wrong-answer message. -/
theorem c5_amended_failure_is_notfound_witness :
    verify_authentication c5St "A" 3 "tok" =
      VerifyOutcome.err c5St ⟨Code.notFound, "S : 3 wrong answer"⟩ :=
  c5_amended_failure_is_notfound c5St "A" 3 "tok" "alice" ⟨"alice", 0, 0, 0, 0, 0, 0, ""⟩
    (by decide) (by decide) (by decide)

/-- C7: the claim that after re-registration a Challenge/Verify round
succeeds only for a response computed from the new secret fails when the
server happens to draw the challenge c = 0: after alice re-registers with
secret 7, the response solve(5, 0, 6) computed from the old secret 6 is
accepted by Verify. -/
theorem c7_counterexample :
    create_authentication_challenge c7StNew "alice" (modpow alpha1024 5 p1024)
      (modpow beta1024 5 p1024) 0 "A" = ChallengeOutcome.ok c7StZero ⟨"A", 0⟩ ∧
    (verify_authentication c7StZero "A" (zkp_instance.solve 5 0 6) "tok").isOk = true := by
  refine ⟨by decide, by decide⟩

/-- C7 amended: Register always succeeds with an empty acknowledgement and
overwrites the stored record last-write-wins; after a subsequent
Challenge issued for honest commitments with nonce k, the response
computed from the new secret is accepted by Verify; a response computed
from the old secret is not always rejected (it still verifies when the
drawn challenge satisfies c * old secret = c * new secret modulo q, for
example c = 0), but it is rejected in the concrete run with old secret 6,
new secret 7, nonce k = 100 and challenge c = 4. -/
theorem c7_amended_new_secret_verifies (st : ServerState) (name : String)
    (xNew k c : Nat) (aid sid : String) :
    (register st name (modpow alpha1024 xNew p1024) (modpow beta1024 xNew p1024)).2 =
      RegisterResponse.mk ∧
    lookupA (register st name (modpow alpha1024 xNew p1024)
        (modpow beta1024 xNew p1024)).1.user_info name =
      some ⟨name, modpow alpha1024 xNew p1024, modpow beta1024 xNew p1024,
        0, 0, 0, 0, ""⟩ ∧
    (∀ st1 resp, create_authentication_challenge
        (register st name (modpow alpha1024 xNew p1024) (modpow beta1024 xNew p1024)).1
        name (modpow alpha1024 k p1024) (modpow beta1024 k p1024) c aid =
          ChallengeOutcome.ok st1 resp →
      (verify_authentication st1 aid (zkp_instance.solve k c xNew) sid).isOk = true) ∧
    create_authentication_challenge c7StNew "alice" (modpow alpha1024 100 p1024)
      (modpow beta1024 100 p1024) 4 "A" = ChallengeOutcome.ok c7StRej ⟨"A", 4⟩ ∧
    (verify_authentication c7StRej "A" (zkp_instance.solve 100 4 6) "tok").isOk = false := by
  refine ⟨rfl, ?_, ?_, by decide, by decide⟩
  · unfold register
    rw [lookupA_insertA, if_pos rfl]
    rfl
  · intro st1 resp heq
    obtain ⟨info, hinfo, hst1, -⟩ :=
      challenge_ok_inv _ st1 name (modpow alpha1024 k p1024) (modpow beta1024 k p1024)
        c aid resp heq
    unfold register at hinfo
    rw [lookupA_insertA, if_pos rfl] at hinfo
    injection hinfo with hFresh
    have hauth : lookupA st1.auth_id_to_user aid = some name := by
      simp only [hst1]
      rw [lookupA_insertA, if_pos rfl]
    have huser : lookupA st1.user_info name =
        some { info with r1 := modpow alpha1024 k p1024, r2 := modpow beta1024 k p1024, c := c } := by
      simp only [hst1]
      rw [lookupA_insertA, if_pos rfl]
    rw [verify_isOk_eq st1 aid (zkp_instance.solve k c xNew) sid name _ hauth huser,
      ← hFresh]
    exact zkp_instance_verify_solve xNew k c

/-- C7 amended witness: in the concrete re-registration run (old secret 6,
new secret 7, nonce 100, challenge 4) the new secret's response is
accepted and the old secret's response is rejected. -/
theorem c7_amended_new_secret_verifies_witness :
    (verify_authentication c7StRej "A" (zkp_instance.solve 100 4 7) "tok").isOk = true ∧
    (verify_authentication c7StRej "A" (zkp_instance.solve 100 4 6) "tok").isOk = false := by
  have h := c7_amended_new_secret_verifies c7StOld "alice" 7 100 4 "A" "tok"
  exact ⟨h.2.2.1 c7StRej ⟨"A", 4⟩ (by decide), h.2.2.2.2⟩
